import Mathlib

/-!
Verification of the interface declared in `clib/download.h` of luakit.

The source file is a 33-line C header that declares two functions binding a
native WebKitDownload object into a Lua scripting runtime:

  void download_class_setup(lua_State*);
  gint luaH_download_push(lua_State*, WebKitDownload*);

We embed the header line by line, model the C preprocessor's handling of its
include guard, and model (from the specification, since the implementation
file is not part of the supplied sources) the behaviour of the two declared
routines.
-/

/-- C types as they appear in the header's declarations. -/
inductive CType where
  | void : CType
  | gint : CType
  | ptr : CType → CType
  | named : String → CType
deriving DecidableEq, Repr

/-- `true` exactly for the integer types appearing in the header. -/
def CType.isIntegerType : CType → Bool
  | CType.gint => true
  | _ => false

/-- A C function declaration: name, return type, parameter types. -/
structure FunDecl where
  name : String
  ret : CType
  params : List CType
deriving DecidableEq, Repr

/-- One line of C source, classified.  Besides the kinds of line actually
occurring in `clib/download.h` (comments, blanks, preprocessor directives and
function prototypes), the type can represent struct definitions and function
definitions with bodies, so that their absence from the header is a
non-vacuous statement. -/
inductive SrcLine where
  | commentLine : SrcLine
  | blankLine : SrcLine
  | ifndefLine : String → SrcLine
  | defineLine : String → SrcLine
  | includeLine : String → SrcLine
  | protoLine : FunDecl → SrcLine
  | endifLine : SrcLine
  | structDefLine : String → SrcLine
  | funDefLine : FunDecl → SrcLine
deriving DecidableEq, Repr

/-- The declaration on line 28 of `clib/download.h`:
`void download_class_setup(lua_State*);`. -/
def download_class_setup_decl : FunDecl :=
  { name := "download_class_setup"
    ret := CType.void
    params := [CType.ptr (CType.named "lua_State")] }

/-- The declaration on line 29 of `clib/download.h`:
`gint luaH_download_push(lua_State*, WebKitDownload*);`. -/
def luaH_download_push_decl : FunDecl :=
  { name := "luaH_download_push"
    ret := CType.gint
    params := [CType.ptr (CType.named "lua_State"),
               CType.ptr (CType.named "WebKitDownload")] }

/-- `clib/download.h`, embedded line by line (lines 1-33 of the file).
Lines 1-20 are the licence comment block, line 22 opens the include guard
`LUAKIT_CLIB_DOWNLOAD_H`, line 23 defines it, lines 25-26 include `lua.h`
and `webkit2/webkit2.h`, lines 28-29 are the two prototypes, line 31 closes
the guard and line 33 is the vim modeline comment. -/
def downloadHeaderLines : List SrcLine :=
  [ SrcLine.commentLine,                               -- line 1
    SrcLine.commentLine, SrcLine.commentLine,          -- lines 2-3
    SrcLine.commentLine, SrcLine.commentLine,          -- lines 4-5
    SrcLine.commentLine, SrcLine.commentLine,          -- lines 6-7
    SrcLine.commentLine, SrcLine.commentLine,          -- lines 8-9
    SrcLine.commentLine, SrcLine.commentLine,          -- lines 10-11
    SrcLine.commentLine, SrcLine.commentLine,          -- lines 12-13
    SrcLine.commentLine, SrcLine.commentLine,          -- lines 14-15
    SrcLine.commentLine, SrcLine.commentLine,          -- lines 16-17
    SrcLine.commentLine, SrcLine.commentLine,          -- lines 18-19
    SrcLine.commentLine,                               -- line 20
    SrcLine.blankLine,                                 -- line 21
    SrcLine.ifndefLine "LUAKIT_CLIB_DOWNLOAD_H",       -- line 22
    SrcLine.defineLine "LUAKIT_CLIB_DOWNLOAD_H",       -- line 23
    SrcLine.blankLine,                                 -- line 24
    SrcLine.includeLine "lua.h",                       -- line 25
    SrcLine.includeLine "webkit2/webkit2.h",           -- line 26
    SrcLine.blankLine,                                 -- line 27
    SrcLine.protoLine download_class_setup_decl,       -- line 28
    SrcLine.protoLine luaH_download_push_decl,         -- line 29
    SrcLine.blankLine,                                 -- line 30
    SrcLine.endifLine,                                 -- line 31
    SrcLine.blankLine,                                 -- line 32
    SrcLine.commentLine ]                              -- line 33

/-- `true` iff the line is a function definition with a body. -/
def SrcLine.isFunDef : SrcLine → Bool
  | SrcLine.funDefLine _ => true
  | _ => false

/-- `true` iff the line is a data-structure (struct) definition. -/
def SrcLine.isStructDef : SrcLine → Bool
  | SrcLine.structDefLine _ => true
  | _ => false

/-- `true` iff the line carries no logic: a comment, a blank line, a
preprocessor directive, or a bodyless function prototype. -/
def SrcLine.isInterfaceOnly : SrcLine → Bool
  | SrcLine.commentLine => true
  | SrcLine.blankLine => true
  | SrcLine.ifndefLine _ => true
  | SrcLine.defineLine _ => true
  | SrcLine.includeLine _ => true
  | SrcLine.protoLine _ => true
  | SrcLine.endifLine => true
  | SrcLine.structDefLine _ => false
  | SrcLine.funDefLine _ => false

/-- State of the C preprocessor while a translation unit is compiled:
the set of defined guard symbols, the nesting depth of currently inactive
conditional groups, and the function declarations emitted so far. -/
structure PPState where
  defined : List String
  skipDepth : Nat
  emitted : List FunDecl
deriving DecidableEq, Repr

/-- Preprocessor transition for one source line.  Inside an inactive
conditional group (`skipDepth > 0`) nothing is defined or emitted, and
nested conditionals only track depth. -/
def processLine (s : PPState) (l : SrcLine) : PPState :=
  match l with
  | SrcLine.ifndefLine sym =>
      if s.skipDepth > 0 then { s with skipDepth := s.skipDepth + 1 }
      else if sym ∈ s.defined then { s with skipDepth := 1 }
      else s
  | SrcLine.endifLine =>
      if s.skipDepth > 0 then { s with skipDepth := s.skipDepth - 1 } else s
  | SrcLine.defineLine sym =>
      if s.skipDepth = 0 then { s with defined := s.defined ++ [sym] } else s
  | SrcLine.protoLine d =>
      if s.skipDepth = 0 then { s with emitted := s.emitted ++ [d] } else s
  | SrcLine.funDefLine d =>
      if s.skipDepth = 0 then { s with emitted := s.emitted ++ [d] } else s
  | _ => s

/-- Effect of `#include "clib/download.h"` on the preprocessor state:
process the header's 33 lines in order. -/
def includeDownloadH (s : PPState) : PPState :=
  downloadHeaderLines.foldl processLine s

/-- Preprocessor state at the start of a translation unit. -/
def initState : PPState :=
  { defined := [], skipDepth := 0, emitted := [] }

/-- Preprocessor state after including `clib/download.h` `n` times in one
translation unit. -/
def includeN : Nat → PPState
  | 0 => initState
  | n + 1 => includeDownloadH (includeN n)

/-- `gint` is glib's 32-bit-or-wider signed `int`; we use the guaranteed
32-bit range.  Smallest representable value. -/
def gintMin : Int := -(2 ^ 31)

/-- Largest value representable in `gint`. -/
def gintMax : Int := 2 ^ 31 - 1

/-- An integer is representable in the `gint` return type iff it lies in
the signed range. -/
def gintRepresentable (n : Int) : Prop := gintMin ≤ n ∧ gintMax ≥ n

instance (n : Int) : Decidable (gintRepresentable n) :=
  inferInstanceAs (Decidable (_ ∧ _))

/-- A Lua value, as far as this binding is concerned: the scripting-visible
wrapper object around a native download handle. -/
inductive LuaValue where
  | downloadObject : Nat → LuaValue
deriving DecidableEq, Repr

/-- Modelled from the spec: the Lua runtime state (`lua_State`) as seen by
this binding.  The implementation file of `clib/download.h` is not among
the supplied sources, so we keep only what the spec mentions: the
evaluation stack onto which values are pushed, and the global environment
holding the registered classes. -/
structure LuaRuntime where
  stack : List LuaValue
  globals : List String
deriving DecidableEq, Repr

/-- Modelled from the spec: the implementation of `luaH_download_push` is
not among the supplied sources (only its declaration in `clib/download.h`
is).  Per the spec it wraps a native download handle as a scripting-visible
object, places it on the runtime's evaluation stack, and returns the count
of values it pushed. -/
def luaH_download_push (s : LuaRuntime) (handle : Nat) : LuaRuntime × Int :=
  ({ s with stack := s.stack ++ [LuaValue.downloadObject handle] }, 1)

/-- Modelled from the spec: the implementation of `download_class_setup` is
not among the supplied sources (only its declaration in `clib/download.h`
is).  Per the spec it registers the download type/class into the scripting
runtime's global environment. -/
def download_class_setup (s : LuaRuntime) : LuaRuntime :=
  { s with globals := s.globals ++ ["download"] }

/-- C1: the header's entire visible interface is exactly the two declared
functions `download_class_setup` and `luaH_download_push`, in that order,
and nothing else is declared. -/
theorem header_declares_exactly_two_functions :
    (includeN 1).emitted = [download_class_setup_decl, luaH_download_push_decl] := by
  decide

/-- C2 counterexample: no declaration in the header is named
`download_push` (while there is a two-parameter integer-returning push
routine); the claim's name for the push entry point is wrong. -/
theorem no_declaration_named_download_push :
    ¬ ∃ d ∈ (includeN 1).emitted, d.name = "download_push" ∧
        d.params.length = 2 ∧ d.ret.isIntegerType = true := by
  decide

/-- C2 (amended): the declared push entry point is named
`luaH_download_push`; it takes exactly two inputs, a scripting-runtime
state (`lua_State*`) first and a native download handle (`WebKitDownload*`)
second, and returns an integer (`gint`). -/
theorem push_entry_point_signature :
    ∃ d ∈ (includeN 1).emitted, d.name = "luaH_download_push" ∧
      d.params = [CType.ptr (CType.named "lua_State"),
                  CType.ptr (CType.named "WebKitDownload")] ∧
      d.params.length = 2 ∧ d.ret.isIntegerType = true := by
  decide

/-- C3: the declared setup routine `download_class_setup` takes exactly one
parameter, the scripting-runtime handle `lua_State*`, and returns void. -/
theorem setup_entry_point_signature :
    ∃ d ∈ (includeN 1).emitted, d.name = "download_class_setup" ∧
      d.params = [CType.ptr (CType.named "lua_State")] ∧
      d.params.length = 1 ∧ d.ret = CType.void := by
  decide

/-- C4: every call of the push routine returns exactly the number of values
it placed on the runtime's evaluation stack during that call. -/
theorem luaH_download_push_returns_pushed_count (s : LuaRuntime) (handle : Nat) :
    (luaH_download_push s handle).2 =
      ((luaH_download_push s handle).1.stack.length : Int) - (s.stack.length : Int) := by
  simp [luaH_download_push]

/-- C5: after every call of the setup routine, the download class is
registered in that runtime's global environment. -/
theorem download_class_setup_registers_class (s : LuaRuntime) :
    "download" ∈ (download_class_setup s).globals := by
  simp [download_class_setup]

/-- C6: the supplied source is a 33-line header and contains no
implementation body: no line of it defines a function. -/
theorem header_is_33_lines_without_bodies :
    downloadHeaderLines.length = 33 ∧
      ∀ l ∈ downloadHeaderLines, l.isFunDef = false := by
  decide

/-- C7: every line of the header is a comment, blank, preprocessor
directive or bodyless prototype — no algorithmic logic, no data-structure
definition, no function body. -/
theorem header_is_interface_only :
    ∀ l ∈ downloadHeaderLines,
      l.isInterfaceOnly = true ∧ l.isStructDef = false ∧ l.isFunDef = false := by
  decide

/-- Witness for C7 at a concrete line: line 28, the prototype of
`download_class_setup`, is in the header and is interface-only. -/
theorem header_is_interface_only_witness :
    SrcLine.protoLine download_class_setup_decl ∈ downloadHeaderLines ∧
      ((SrcLine.protoLine download_class_setup_decl).isInterfaceOnly = true ∧
        (SrcLine.protoLine download_class_setup_decl).isStructDef = false ∧
        (SrcLine.protoLine download_class_setup_decl).isFunDef = false) :=
  ⟨by decide,
    header_is_interface_only (SrcLine.protoLine download_class_setup_decl) (by decide)⟩

/-- Once the guard symbol is defined and the two declarations emitted,
re-including the header leaves the preprocessor state unchanged. -/
theorem includeDownloadH_idem :
    includeDownloadH (includeN 1) = includeN 1 := by
  decide

/-- After at least one inclusion, the preprocessor state is stable. -/
theorem includeN_stable (n : Nat) : includeN (n + 1) = includeN 1 := by
  induction n with
  | zero => rfl
  | succ m ih =>
      calc includeN (m + 2)
          = includeDownloadH (includeN (m + 1)) := rfl
        _ = includeDownloadH (includeN 1) := by rw [ih]
        _ = includeN 1 := includeDownloadH_idem

/-- C8: inclusion of the header is idempotent thanks to the
`LUAKIT_CLIB_DOWNLOAD_H` guard: including it `n + 1` times in one
translation unit yields exactly the declarations of including it once. -/
theorem header_inclusion_idempotent (n : Nat) :
    (includeN (n + 1)).emitted = (includeN 1).emitted := by
  rw [includeN_stable n]

/-- C9: the concrete external types are fixed by the header: both declared
functions take a Lua `lua_State` pointer as their scripting-runtime state,
and the push routine's native download handle is a WebKit2 `WebKitDownload`
pointer. -/
theorem binding_external_types_fixed :
    download_class_setup_decl.params = [CType.ptr (CType.named "lua_State")] ∧
      luaH_download_push_decl.params =
        [CType.ptr (CType.named "lua_State"),
         CType.ptr (CType.named "WebKitDownload")] ∧
      download_class_setup_decl ∈ (includeN 1).emitted ∧
      luaH_download_push_decl ∈ (includeN 1).emitted := by
  decide

/-- C10: the push routine's declared return type is `gint`, a signed
integer: the interface permits negative return values (for example `-1` is
representable) and bounds the reported count to the signed 32-bit range
`[-2^31, 2^31 - 1]`. -/
theorem push_return_type_gint_signed_bounded :
    luaH_download_push_decl.ret = CType.gint ∧
      gintRepresentable (-1) ∧ (-1 : Int) < 0 ∧
      ¬ gintRepresentable (2 ^ 31) ∧
      gintMin = -(2 ^ 31) ∧ gintMax = 2 ^ 31 - 1 := by
  decide
